import Mathlib

/-!
Verification of `makefilegen` (src/makefilegen.py) against its
natural-language specification.

The Python source is shallowly embedded: Python `str` values become Lean
`String`s (with character-level operations on `String.data` where Python
operates on characters), Python lists become Lean `List`s, raised
exceptions become `Except String` results, and the filesystem probe
`os.path.isdir` becomes an explicit predicate parameter `fs : String → Bool`.
-/

namespace Makefilegen

/-! ## UniqueList (src/makefilegen.py lines 63-115)

The Python class `UniqueList(list)` keeps elements unique while preserving
first-insertion order.  Its operations are embedded as functions on plain
`List α`.
-/

namespace UniqueList

variable {α : Type} [DecidableEq α]

/-- Embeds `UniqueList.append`: `if item not in self: super().append(item)`. -/
def append (l : List α) (x : α) : List α :=
  if x ∈ l then l else l ++ [x]

/-- Embeds `UniqueList.add`: `if item not in self: self.append(item)`. -/
def add (l : List α) (x : α) : List α :=
  if x ∈ l then l else l ++ [x]

/-- Embeds `UniqueList.extend`: `for item in iterable: self.add(item)`. -/
def extend (l : List α) (xs : List α) : List α :=
  xs.foldl add l

/-- Embeds `UniqueList.insert`: `if item not in self: super().insert(index, item)`.
Python `list.insert` clamps an index beyond the end, which `take`/`drop` match. -/
def insert (l : List α) (idx : Nat) (x : α) : List α :=
  if x ∈ l then l else l.take idx ++ [x] ++ l.drop idx

/-- Embeds `UniqueList.__init__`: starts empty and `add`s every element of
the iterable in order. -/
def fromList (xs : List α) : List α :=
  extend [] xs

end UniqueList

/-- Claim-side characterization (refinement target), following the spec's
words "exactly the distinct elements in order of first occurrence": walk the
input keeping each element the first time it is seen, where `seen` records
the elements already kept. -/
def specDistinct {α : Type} [DecidableEq α] (seen : List α) : List α → List α
  | [] => []
  | x :: xs => if x ∈ seen then specDistinct seen xs else x :: specDistinct (x :: seen) xs

/-! ## Variable classes (src/makefilegen.py lines 122-165) -/

/-- Embeds the Python `Var` data: a key, the class-level `assign_op`, and the
value string. -/
structure Var where
  key : String
  assign_op : String
  value : String
deriving DecidableEq, Repr

/-- Base class `Var`, `assign_op = "="`. -/
def mkVar (key value : String) : Var := ⟨key, "=", value⟩

/-- Subclass `SVar`, `assign_op = ":="`. -/
def SVar (key value : String) : Var := ⟨key, ":=", value⟩

/-- Subclass `IVar`, `assign_op = ":::="`. -/
def IVar (key value : String) : Var := ⟨key, ":::=", value⟩

/-- Subclass `CVar`, `assign_op = "?="`. -/
def CVar (key value : String) : Var := ⟨key, "?=", value⟩

/-- Subclass `AVar`, `assign_op = "+="`. -/
def AVar (key value : String) : Var := ⟨key, "+=", value⟩

/-- Embeds Python `value.split(sep_char)` at the character level
(`str.split` with a one-character separator keeps empty pieces, exactly
`List.splitOn`). -/
def pySplit (v : String) (c : Char) : List String :=
  (v.data.splitOn c).map String.mk

/-- Embeds Python `sep.join(lines)` for a one-character separator. -/
def pyJoin (sep : Char) (lines : List String) : String :=
  String.mk (List.intercalate [sep] (lines.map String.data))

/-- Embeds `Var.__str__` (lines 133-141).  `VERSION` (the host `make`
version, a Python float parsed at import time) is passed in as a rational
parameter `ver`; the source compares it against the literal threshold
`3.81`. -/
def Var.render (ver : ℚ) (v : Var) : String :=
  if '\n' ∈ v.value.data then
    let lines := pySplit v.value '\n'
    let values := pyJoin '\n' lines
    if ver > 3.81 then
      "define " ++ v.key ++ " " ++ v.assign_op ++ "\n" ++ values ++ "\nendef\n"
    else
      "define " ++ v.key ++ "\n" ++ values ++ "\nendef\n"
  else
    v.key ++ " " ++ v.assign_op ++ " " ++ v.value

/-! ## Shared accumulator helper -/

/-- Embeds Python `" ".join(xs)`. -/
def sjoin (xs : List String) : String :=
  String.intercalate " " xs

/-- Embeds the shared entries loop of `Builder._add_config_entries`
(lines 523-541) and `MakefileGenerator._add_entry_or_variable`
(lines 701-720): for each entry, the test function is evaluated (a raised
exception inside it propagates; a falsy result raises the `assert`), then
the entry as passed is looked up in the list — in strict mode a hit raises
the duplicate `ValueError`, otherwise the entry is skipped — and otherwise
the prefixed entry is appended through `UniqueList.append`. -/
def addEntries (strict : Bool) (test : String → Except String Bool) (pfx : String) :
    List String → List String → Except String (List String)
  | lst, [] => .ok lst
  | lst, e :: rest =>
    (test e).bind (fun b =>
      if b then
        if e ∈ lst then
          if strict then .error ("entry: " ++ e ++ " already exists")
          else addEntries strict test pfx lst rest
        else addEntries strict test pfx (UniqueList.append lst (pfx ++ e)) rest
      else .error ("Invalid entry: " ++ e))

/-! ## Builder (src/makefilegen.py lines 325-629) -/

/-- Embeds the `Builder` state. -/
structure Builder where
  target : String
  strict : Bool
  cc : String
  cxx : String
  cppfiles : List String
  hppfiles : List String
  include_dirs : List String
  cflags : List String
  cxxflags : List String
  link_dirs : List String
  ldlibs : List String
  ldflags : List String
  cleanup_patterns : List String
  cleanup_targets : List String
deriving DecidableEq, Repr

/-- Embeds the property `Builder.CXXFLAGS`: joined c++ flags followed by the
joined include directories. -/
def Builder.CXXFLAGS (b : Builder) : String :=
  sjoin b.cxxflags ++ " " ++ sjoin b.include_dirs

/-- Embeds the property `Builder.LDFLAGS`: joined linker flags followed by
the joined link directories. -/
def Builder.LDFLAGS (b : Builder) : String :=
  sjoin b.ldflags ++ " " ++ sjoin b.link_dirs

/-- Embeds the property `Builder.build_cmd` (lines 466-469). -/
def Builder.build_cmd (b : Builder) : String :=
  b.cxx ++ " " ++ b.CXXFLAGS ++ " " ++ sjoin b.cppfiles ++ " " ++ sjoin b.ldlibs ++
    " " ++ b.LDFLAGS ++ " -o " ++ b.target

/-- Observable side effects of `Builder.build`/`Builder.clean`: printing a
line, spawning a shell process, removing glob matches, removing a path. -/
inductive Effect where
  | print (s : String)
  | exec (cmd : String)
  | removeGlob (pat : String)
  | removePath (p : String)
deriving DecidableEq, Repr

/-- True only for the process-spawning effect. -/
def Effect.isExec : Effect → Bool
  | .exec _ => true
  | _ => false

/-- Embeds `Builder.clean` (lines 574-580) as effects. -/
def Builder.cleanEffects (b : Builder) : List Effect :=
  b.cleanup_patterns.map Effect.removeGlob ++ b.cleanup_targets.map Effect.removePath

/-- Embeds `Builder.configure`/`Builder._setup_defaults` (lines 559-561,
627-629): add the current working directory as an include dir, with test
function `os.path.isdir`. -/
def Builder.configure (fs : String → Bool) (cwd : String) (b : Builder) :
    Except String Builder :=
  match addEntries b.strict (fun p => .ok (fs p)) "-I" b.include_dirs [cwd] with
  | .error msg => .error msg
  | .ok dirs => .ok { b with include_dirs := dirs }

/-- Embeds `Builder.build` (lines 563-572): configure, then either print the
command only (dry run) or print a blank line, spawn the command, and clean
up when any cleanup entries were registered. -/
def Builder.build (fs : String → Bool) (cwd : String) (b : Builder) (dry_run : Bool) :
    Except String (Builder × List Effect) :=
  match Builder.configure fs cwd b with
  | .error msg => .error msg
  | .ok c =>
    if dry_run then .ok (c, [Effect.print c.build_cmd])
    else .ok (c, [Effect.print "", Effect.exec c.build_cmd] ++
      (if c.cleanup_patterns ≠ [] ∨ c.cleanup_targets ≠ [] then c.cleanEffects else []))

/-! ## MakefileGenerator (src/makefilegen.py lines 632-906)

The fields `includes`, `includes_optional` and `conditionals` and their two
write functions are the only parts not translated from src: the repository's
tests exercise `add_include`/`add_include_optional`/`add_conditional`, but
that code is missing from src/makefilegen.py, so those parts are modelled
from the spec (§4.6 items 2 and 4) and are marked as such below.
-/

/-- Embeds the `MakefileGenerator` accumulator state.  `vars` is the Python
dict `self.vars` as an association list (which stores `Var` objects, see
`add_variable`); `var_order` is the separate first-insertion order list. -/
structure GenState where
  strict : Bool
  cxx : String
  vars : List (String × Var)
  var_order : List String
  include_dirs : List String
  cflags : List String
  cxxflags : List String
  link_dirs : List String
  ldlibs : List String
  ldflags : List String
  targets : List String
  pattern_rules : List String
  phony : List String
  clean : List String
  includes : List String
  includes_optional : List String
  conditionals : List String
deriving DecidableEq, Repr

/-- A fresh generator: `MakefileGenerator.__init__` with default
`strict=False` and `cxx="g++"` and every collection empty. -/
def emptyGen : GenState :=
  ⟨false, "g++", [], [], [], [], [], [], [], [], [], [], [], [], [], [], []⟩

/-- Embeds Python dict read `self.vars[key]` (an association-list lookup,
where `setVar` keeps keys unique). -/
def lookupVar : List (String × Var) → String → Option Var
  | [], _ => none
  | (k, v) :: rest, key => if k = key then some v else lookupVar rest key

/-- Embeds Python dict write `self.vars[key] = v`: overwrite if present,
append otherwise. -/
def setVar : List (String × Var) → String → Var → List (String × Var)
  | [], key, v => [(key, v)]
  | (k, w) :: rest, key, v =>
    if k = key then (k, v) :: rest else (k, w) :: setVar rest key v

/-- Embeds the group(1) capture of `re.match(r".*\$+\((.+)\).*", s)` in
`check_dir` (line 675).  With the backtracking engine and all-greedy
quantifiers, the match picks the rightmost position where a run of `$`s is
immediately followed by `(` and some `)` lies at least two characters
further right, and the capture then extends greedily to the last `)` of the
string; no such position means no match. -/
def reGroup1 (s : String) : Option String :=
  let cs := s.data
  let n := cs.length
  let closeAfter : Nat → List Nat := fun i =>
    (List.range n).filter (fun j => decide (i + 2 ≤ j) && (cs.getD j ' ' == ')'))
  let opens := (List.range n).filter (fun i =>
    decide (1 ≤ i) && (cs.getD i ' ' == '(') && (cs.getD (i - 1) ' ' == '$') &&
      !(closeAfter i).isEmpty)
  match opens.getLast? with
  | none => none
  | some i =>
    match (closeAfter i).getLast? with
    | none => none
    | some j => some (String.mk ((cs.take j).drop (i + 1)))

/-- Embeds `MakefileGenerator.check_dir` (lines 667-685).  The defaults dict
has values `$(HOME)`, `$(PWD)`, `$(CURDIR)` and keys `HOME`, `PWD`,
`CURDIR`.  In the variable-reference branch the source executes
`assert os.path.isdir(self.vars[key])`, but `self.vars` stores `Var`
objects (see `add_variable`), and `os.stat` on a `Var` raises `TypeError`,
which `os.path.isdir` does not swallow (it only catches `OSError` and
`ValueError`); that uncaught exception is embedded as the error below, so
this branch can never return `True` for a registered user variable. -/
def checkDir (vars : List (String × Var)) (fs : String → Bool) (path : String) :
    Except String Bool :=
  if path = "$(HOME)" ∨ path = "$(PWD)" ∨ path = "$(CURDIR)" then .ok true
  else
    match reGroup1 path with
    | some key =>
      if key = "HOME" ∨ key = "PWD" ∨ key = "CURDIR" then .ok true
      else
        match lookupVar vars key with
        | none => .error ("Invalid variable: " ++ key)
        | some _ =>
          .error "TypeError: stat path should be a string, not Var"
    | none => .ok (fs path)

/-- Embeds `MakefileGenerator.add_include_dirs` (lines 741-745), positional
entries: the shared accumulator with test `check_dir` and the `-I` marker. -/
def GenState.add_include_dirs (fs : String → Bool) (st : GenState)
    (entries : List String) : Except String GenState :=
  (addEntries st.strict (checkDir st.vars fs) "-I" st.include_dirs entries).map
    (fun dirs => { st with include_dirs := dirs })

/-- Embeds `MakefileGenerator.add_link_dirs` (lines 755-759), positional
entries: the shared accumulator with test `check_dir` and the `-L` marker. -/
def GenState.add_link_dirs (fs : String → Bool) (st : GenState)
    (entries : List String) : Except String GenState :=
  (addEntries st.strict (checkDir st.vars fs) "-L" st.link_dirs entries).map
    (fun dirs => { st with link_dirs := dirs })

/-- Embeds `MakefileGenerator.add_variable` (lines 736-739) with the default
`var_type=Var`: store a `Var` object in the dict and record the key in
`var_order` (a UniqueList append). -/
def GenState.add_variable (st : GenState) (key value : String) : GenState :=
  { st with vars := setVar st.vars key (mkVar key value),
            var_order := UniqueList.append st.var_order key }

/-- Embeds `MakefileGenerator._setup_defaults` (lines 815-819): add
`$(CURDIR)` as an include dir. -/
def GenState.setup_defaults (fs : String → Bool) (st : GenState) :
    Except String GenState :=
  GenState.add_include_dirs fs st ["$(CURDIR)"]

/-- Python truthiness of an optional string (`None` and `""` are falsy). -/
def strTruthy : Option String → Bool
  | none => false
  | some s => !(s == "")

/-- Python truthiness of an optional list (`None` and `[]` are falsy). -/
def listTruthy : Option (List String) → Bool
  | none => false
  | some l => !l.isEmpty

/-- The `_target` text assembled by `add_target` (lines 775-782): one of the
three forms deps+recipe, recipe-only, deps-only. -/
def renderTarget (name : String) (recipe : Option String)
    (deps : Option (List String)) : String :=
  if strTruthy recipe && listTruthy deps then
    name ++ ": " ++ sjoin (deps.getD []) ++ "\n\t" ++ recipe.getD ""
  else if strTruthy recipe then
    name ++ ":\n\t" ++ recipe.getD ""
  else
    name ++ ": " ++ sjoin (deps.getD [])

/-- Embeds `MakefileGenerator.add_target` (lines 769-785).  Every raise
happens before the append, so on error the targets collection is untouched
(the error result carries no new list). -/
def add_target (targets : List String) (name : String) (recipe : Option String)
    (deps : Option (List String)) : Except String (List String) :=
  if strTruthy recipe = false ∧ listTruthy deps = false then
    .error "Either recipe or dependencies must be provided"
  else
    let t := renderTarget name recipe deps
    if t ∈ targets then .error ("target: " ++ t ++ " already exists in targets list")
    else .ok (UniqueList.append targets t)

/-- Embeds `MakefileGenerator.add_pattern_rule` (lines 787-801).  Every
raise happens before the append, so on error the rule collection is
untouched. -/
def add_pattern_rule (rules : List String) (target_pattern source_pattern recipe : String) :
    Except String (List String) :=
  if target_pattern = "" ∨ source_pattern = "" ∨ recipe = "" then
    .error "target_pattern, source_pattern, and recipe are all required"
  else if '%' ∉ target_pattern.data then
    .error "target_pattern must contain percent wildcard"
  else if '%' ∉ source_pattern.data then
    .error "source_pattern must contain percent wildcard"
  else
    let r := target_pattern ++ ": " ++ source_pattern ++ "\n\t" ++ recipe
    if r ∈ rules then .error "pattern rule already exists"
    else .ok (UniqueList.append rules r)

/-! ## Document serialization (lines 821-906)

Each `_write_*` helper is embedded as the list of strings passed to
`self.write` (the writer emits one written string per call; a multi-line
variable block is a single written string containing newlines). -/

/-- The user-variable lines of `_write_variables`: one rendered `Var` per
`var_order` key, in order; a key missing from the dict would raise
`KeyError`. -/
def userVarLines (ver : ℚ) (vars : List (String × Var)) : List String → Except String (List String)
  | [] => .ok []
  | k :: ks =>
    match lookupVar vars k with
    | some v => (userVarLines ver vars ks).map (fun rest => Var.render ver v :: rest)
    | none => .error ("KeyError: " ++ k)

/-- The `INCLUDEDIRS` aggregate line (lines 840-842), emitted only when the
collection is non-empty. -/
def includeDirsLines (st : GenState) : List String :=
  if st.include_dirs.isEmpty then [] else ["INCLUDEDIRS = " ++ sjoin st.include_dirs]

/-- The `LINKDIRS` aggregate line (lines 844-846). -/
def linkDirsLines (st : GenState) : List String :=
  if st.link_dirs.isEmpty then [] else ["LINKDIRS = " ++ sjoin st.link_dirs]

/-- The `CFLAGS` aggregate line (lines 852-854). -/
def cflagsLines (st : GenState) : List String :=
  if st.cflags.isEmpty then [] else ["CFLAGS += " ++ sjoin st.cflags ++ " $(INCLUDEDIRS)"]

/-- The `CXXFLAGS` aggregate line (lines 856-858). -/
def cxxflagsLines (st : GenState) : List String :=
  if st.cxxflags.isEmpty then [] else ["CXXFLAGS += " ++ sjoin st.cxxflags ++ " $(INCLUDEDIRS)"]

/-- The `LDFLAGS` aggregate line (lines 860-862), emitted when either the
linker flags or the link dirs are non-empty. -/
def ldflagsLines (st : GenState) : List String :=
  if st.ldflags.isEmpty && st.link_dirs.isEmpty then []
  else ["LDFLAGS += " ++ sjoin st.ldflags ++ " $(LINKDIRS)"]

/-- The `LDLIBS` aggregate line (lines 864-866). -/
def ldlibsLines (st : GenState) : List String :=
  if st.ldlibs.isEmpty then [] else ["LDLIBS = " ++ sjoin st.ldlibs]

/-- Embeds `_write_variables` (lines 831-867): header comment, user
variables in first-insertion order, blank, include/link aggregates, blank,
compiler, flag and library aggregates, blank. -/
def write_variables (ver : ℚ) (st : GenState) : Except String (List String) :=
  (userVarLines ver st.vars st.var_order).map (fun u =>
    ["# project variables"] ++ u ++ [""] ++
      includeDirsLines st ++ linkDirsLines st ++ [""] ++
      ["CXX = " ++ st.cxx] ++ cflagsLines st ++ cxxflagsLines st ++
      ldflagsLines st ++ ldlibsLines st ++ [""])

/-- Modelled from the spec: `_write_includes` is missing from
src/makefilegen.py (only the tests call `add_include`).  Spec §4.6 item 2:
include directives under their own header comment, required entries first,
then optional ones with the dash-include marker. -/
def write_includes (st : GenState) : List String :=
  if st.includes.isEmpty && st.includes_optional.isEmpty then []
  else
    ["# Include directives"] ++ st.includes.map (fun i => "include " ++ i) ++
      st.includes_optional.map (fun i => "-include " ++ i) ++ [""]

/-- Embeds `_write_phony` (lines 869-875). -/
def write_phony (st : GenState) : List String :=
  if st.phony.isEmpty then [] else ["", ".PHONY: " ++ sjoin st.phony, ""]

/-- Modelled from the spec: `_write_conditionals` is missing from
src/makefilegen.py (only the tests call `add_conditional`).  Spec §4.6
item 4: conditional blocks under their own header comment, in registration
order. -/
def write_conditionals (st : GenState) : List String :=
  if st.conditionals.isEmpty then []
  else "# Conditional blocks" :: st.conditionals.flatMap (fun c => [c, ""])

/-- Embeds `_write_pattern_rules` (lines 877-883): header comment, then each
rule followed by a blank line, in registration order. -/
def write_pattern_rules (st : GenState) : List String :=
  if st.pattern_rules.isEmpty then []
  else "# Pattern rules" :: st.pattern_rules.flatMap (fun r => [r, ""])

/-- Embeds `_write_targets` (lines 885-889): `for target in sorted(...)`,
each followed by a blank line.  Python `sorted` on strings is the
lexicographic (code-point) order, the sorted permutation of the input. -/
def write_targets (st : GenState) : List String :=
  (List.insertionSort (· ≤ ·) st.targets).flatMap (fun t => [t, ""])

/-- Embeds `_write_clean` (lines 891-896). -/
def write_clean (st : GenState) : List String :=
  if st.clean.isEmpty then [] else ["clean:\n\t@rm -rf " ++ sjoin st.clean, ""]

/-- Embeds `generate` (lines 898-906): setup defaults, then the sections in
fixed order.  The spec-modelled include-directive and conditional-block
sections are inserted at their §4.6 positions (items 2 and 4). -/
def generate (ver : ℚ) (fs : String → Bool) (st : GenState) :
    Except String (List String) :=
  match GenState.setup_defaults fs st with
  | .error msg => .error msg
  | .ok st2 =>
    match write_variables ver st2 with
    | .error msg => .error msg
    | .ok v =>
      .ok (v ++ write_includes st2 ++ write_phony st2 ++ write_conditionals st2 ++
        write_pattern_rules st2 ++ write_targets st2 ++ write_clean st2)

/-! ## Concrete scenario values used by witnesses and counterexamples -/

/-- A filesystem in which exactly `/tmp` is a directory. -/
def fsTmp : String → Bool := fun p => p == "/tmp"

/-- The C8 scenario: register include dirs `["/tmp"]` and link dirs
`["/tmp"]` on a fresh generator, then generate. -/
def c8res : Except String (List String) :=
  (GenState.add_include_dirs fsTmp emptyGen ["/tmp"]).bind (fun s1 =>
    (GenState.add_link_dirs fsTmp s1 ["/tmp"]).bind (fun s2 =>
      generate 4 fsTmp s2))

/-- The document produced by the C8 scenario. -/
def c8lines : List String :=
  ["# project variables", "", "INCLUDEDIRS = -I/tmp -I$(CURDIR)",
   "LINKDIRS = -L/tmp", "", "CXX = g++", "LDFLAGS +=  $(LINKDIRS)", ""]

/-- The C9 failing scenario state: a fresh generator after
`add_variable("MYDIR", "/tmp")`. -/
def c9gen : GenState := GenState.add_variable emptyGen "MYDIR" "/tmp"

end Makefilegen

namespace Makefilegen

/-! ## Supporting lemmas -/

theorem specDistinct_congr {α : Type} [DecidableEq α] (l : List α) :
    ∀ s₁ s₂ : List α, (∀ a, a ∈ s₁ ↔ a ∈ s₂) → specDistinct s₁ l = specDistinct s₂ l := by
  induction l with
  | nil => intro s₁ s₂ _; rfl
  | cons x xs ih =>
    intro s₁ s₂ h
    by_cases hx : x ∈ s₁
    · simp only [specDistinct, if_pos hx, if_pos ((h x).mp hx)]
      exact ih s₁ s₂ h
    · have hx₂ : x ∉ s₂ := fun hc => hx ((h x).mpr hc)
      simp only [specDistinct, if_neg hx, if_neg hx₂]
      refine congrArg (x :: ·) (ih _ _ ?_)
      intro a
      simp only [List.mem_cons]
      exact or_congr Iff.rfl (h a)

theorem foldl_add_eq_specDistinct {α : Type} [DecidableEq α] (l : List α) :
    ∀ acc : List α, List.foldl UniqueList.add acc l = acc ++ specDistinct acc l := by
  induction l with
  | nil => intro acc; simp [specDistinct]
  | cons x xs ih =>
    intro acc
    by_cases hx : x ∈ acc
    · simp only [List.foldl_cons, UniqueList.add, if_pos hx, specDistinct]
      exact ih acc
    · simp only [List.foldl_cons, UniqueList.add, if_neg hx, specDistinct]
      rw [ih (acc ++ [x])]
      rw [specDistinct_congr xs (acc ++ [x]) (x :: acc) (by intro a; simp [or_comm])]
      simp

theorem pyJoin_pySplit (v : String) (c : Char) : pyJoin c (pySplit v c) = v := by
  unfold pyJoin pySplit
  rw [List.map_map]
  rw [show (String.data ∘ String.mk) = id from rfl, List.map_id, List.intercalate_splitOn]

theorem uniqueList_append_nodup {l : List String} {x : String} (h : l.Nodup) :
    (UniqueList.append l x).Nodup := by
  unfold UniqueList.append
  split
  · exact h
  · next hx => simpa [List.nodup_append] using ⟨h, hx⟩

theorem addEntries_nodup (strict : Bool) (test : String → Except String Bool)
    (pfx : String) :
    ∀ (es lst res : List String), lst.Nodup →
      addEntries strict test pfx lst es = .ok res → res.Nodup := by
  intro es
  induction es with
  | nil =>
    intro lst res h he
    simp only [addEntries] at he
    cases he
    exact h
  | cons e rest ih =>
    intro lst res h he
    simp only [addEntries] at he
    cases ht : test e with
    | error msg => rw [ht] at he; cases he
    | ok b =>
      rw [ht] at he
      simp only [Except.bind] at he
      split at he
      · split at he
        · split at he
          · cases he
          · exact ih lst res h he
        · exact ih _ res (uniqueList_append_nodup h) he
      · cases he

/-! ## Claim theorems -/

/-- C1: a UniqueList built from any input holds exactly the distinct
elements in first-occurrence order, and for an element already present,
`add`, `append`, `extend` leave contents (hence length) unchanged and
`insert` at any index leaves the list entirely unchanged. -/
theorem uniqueList_distinct_and_idempotent {α : Type} [DecidableEq α]
    (input l : List α) (x : α) (i : Nat) (h : x ∈ l) :
    UniqueList.fromList input = specDistinct [] input ∧
    UniqueList.add l x = l ∧
    UniqueList.append l x = l ∧
    UniqueList.extend l [x] = l ∧
    UniqueList.insert l i x = l := by
  refine ⟨?_, ?_, ?_, ?_, ?_⟩
  · have := foldl_add_eq_specDistinct input ([] : List α)
    simpa [UniqueList.fromList, UniqueList.extend] using this
  · simp [UniqueList.add, if_pos h]
  · simp [UniqueList.append, if_pos h]
  · simp [UniqueList.extend, UniqueList.add, if_pos h]
  · simp [UniqueList.insert, if_pos h]

theorem uniqueList_distinct_and_idempotent_witness :
    (2 ∈ [1, 2, 3]) ∧
    (UniqueList.fromList [1, 2, 1, 3, 2] = specDistinct [] [1, 2, 1, 3, 2] ∧
     UniqueList.add [1, 2, 3] 2 = [1, 2, 3] ∧
     UniqueList.append [1, 2, 3] 2 = [1, 2, 3] ∧
     UniqueList.extend [1, 2, 3] [2] = [1, 2, 3] ∧
     UniqueList.insert [1, 2, 3] 0 2 = [1, 2, 3]) :=
  ⟨by decide, uniqueList_distinct_and_idempotent [1, 2, 1, 3, 2] [1, 2, 3] 2 0 (by decide)⟩

/-- C2: a `Var` (and each subclass, differing only in `assign_op`) with a
newline-free value renders as the single line `key op value`; with an
embedded newline it renders as a define/endef block whose header carries the
operator exactly when the detected make version exceeds 3.81, with the value
lines reproduced verbatim in between. -/
theorem var_render_spec (k op v : String) (ver : ℚ) :
    ((SVar k v).assign_op = ":=" ∧ (IVar k v).assign_op = ":::=" ∧
     (CVar k v).assign_op = "?=" ∧ (AVar k v).assign_op = "+=" ∧
     (mkVar k v).assign_op = "=") ∧
    ('\n' ∉ v.data → Var.render ver ⟨k, op, v⟩ = k ++ " " ++ op ++ " " ++ v) ∧
    ('\n' ∈ v.data →
      (3.81 < ver →
        Var.render ver ⟨k, op, v⟩ = "define " ++ k ++ " " ++ op ++ "\n" ++ v ++ "\nendef\n") ∧
      (¬ 3.81 < ver →
        Var.render ver ⟨k, op, v⟩ = "define " ++ k ++ "\n" ++ v ++ "\nendef\n")) := by
  refine ⟨⟨rfl, rfl, rfl, rfl, rfl⟩, ?_, ?_⟩
  · intro hnl
    simp [Var.render, hnl]
  · intro hnl
    constructor
    · intro hver
      simp only [Var.render, if_pos hnl, pyJoin_pySplit, gt_iff_lt, if_pos hver]
    · intro hver
      simp only [Var.render, if_pos hnl, pyJoin_pySplit, gt_iff_lt, if_neg hver]

theorem var_render_spec_witness :
    ('\n' ∈ ("a\nb" : String).data ∧ (3.81 : ℚ) < 4) ∧
    Var.render 4 ⟨"K", ":=", "a\nb"⟩ = "define K :=\na\nb\nendef\n" :=
  ⟨⟨by decide, by norm_num⟩,
    ((var_render_spec "K" ":=" "a\nb" 4).2.2 (by decide)).1 (by norm_num)⟩

/-- C6 counterexample: with strict mode ON, re-adding the directory "/tmp"
to an include-dir collection that already stores it (as its auto-prefixed
form "-I/tmp") does NOT fail — the duplicate lookup compares the raw entry
"/tmp" against the stored prefixed strings, misses, and the duplicate is
silently absorbed by `UniqueList.append`.  The claim's "fails with a
duplicate-entry condition when strict mode is on" is therefore false here. -/
theorem addEntries_strict_prefixed_counterexample :
    addEntries true (fun p => .ok (p == "/tmp")) "-I" ["-I/tmp"] ["/tmp"] =
      .ok ["-I/tmp"] := by
  rfl

/-- C6 (amended): each entry is validated by the method's test predicate;
the strict-mode duplicate failure fires exactly when the entry as passed is
itself already stored; for auto-prefixed entries the stored value carries
the `-I`/`-L` marker, so a re-added directory misses that lookup and is
silently deduplicated by `UniqueList.append` even in strict mode; in all
cases the collection stays duplicate-free. -/
theorem addEntries_policy (strict : Bool) (test : String → Except String Bool)
    (pfx : String) (lst : List String) (e : String) :
    (test e = .ok false →
      addEntries strict test pfx lst [e] = .error ("Invalid entry: " ++ e)) ∧
    (test e = .ok true → e ∈ lst → strict = false →
      addEntries strict test pfx lst [e] = .ok lst) ∧
    (test e = .ok true → e ∈ lst → strict = true →
      addEntries strict test pfx lst [e] = .error ("entry: " ++ e ++ " already exists")) ∧
    (test e = .ok true → e ∉ lst →
      addEntries strict test pfx lst [e] = .ok (UniqueList.append lst (pfx ++ e))) ∧
    (∀ es res, lst.Nodup → addEntries strict test pfx lst es = .ok res → res.Nodup) := by
  refine ⟨?_, ?_, ?_, ?_, ?_⟩
  · intro ht
    simp [addEntries, ht, Except.bind]
  · intro ht hm hs
    subst hs
    simp [addEntries, ht, hm, Except.bind]
  · intro ht hm hs
    subst hs
    simp [addEntries, ht, hm, Except.bind]
  · intro ht hm
    simp [addEntries, ht, hm, Except.bind]
  · intro es res h he
    exact addEntries_nodup strict test pfx es lst res h he

theorem addEntries_policy_witness :
    ((fun _ => (.ok true : Except String Bool)) "-O2" = .ok true ∧ "-O2" ∈ ["-O2"]) ∧
    addEntries true (fun _ => .ok true) "" ["-O2"] ["-O2"] =
      .error ("entry: " ++ "-O2" ++ " already exists") :=
  ⟨⟨rfl, by decide⟩,
    (addEntries_policy true (fun _ => .ok true) "" ["-O2"] "-O2").2.2.1 rfl (by decide) rfl⟩

/-- C7: the rendered build command is the fixed-order concatenation of
compiler, joined c++ flags, joined include dirs, joined source files,
joined link libraries, joined linker flags, joined link dirs, `-o`, target;
and a dry-run build prints exactly that command for the configured builder
and spawns no process. -/
theorem builder_build_cmd_dry_run (b : Builder) (fs : String → Bool) (cwd : String) :
    (b.build_cmd =
      b.cxx ++ " " ++ sjoin b.cxxflags ++ " " ++ sjoin b.include_dirs ++ " " ++
        sjoin b.cppfiles ++ " " ++ sjoin b.ldlibs ++ " " ++ sjoin b.ldflags ++ " " ++
        sjoin b.link_dirs ++ " -o " ++ b.target) ∧
    (∀ c effs, Builder.build fs cwd b true = .ok (c, effs) →
      effs = [Effect.print c.build_cmd] ∧ ∀ eff ∈ effs, eff.isExec = false) := by
  constructor
  · simp [Builder.build_cmd, Builder.CXXFLAGS, Builder.LDFLAGS, String.append_assoc]
  · intro c effs he
    unfold Builder.build at he
    cases hc : Builder.configure fs cwd b with
    | error msg => rw [hc] at he; cases he
    | ok c₂ =>
      rw [hc] at he
      simp only [if_pos rfl] at he
      cases he
      exact ⟨rfl, by intro eff hm; simp at hm; subst hm; rfl⟩

theorem addEntries_single (strict : Bool) (test : String → Except String Bool)
    (pfx : String) (lst : List String) (e : String)
    (ht : test e = .ok true) (hm : e ∉ lst) :
    addEntries strict test pfx lst [e] = .ok (UniqueList.append lst (pfx ++ e)) := by
  simp [addEntries, ht, hm, Except.bind]

theorem mem_uniqueList_append (l : List String) (x : String) :
    x ∈ UniqueList.append l x := by
  unfold UniqueList.append
  split
  · assumption
  · simp

theorem uniqueList_append_ne_nil (l : List String) (x : String) :
    UniqueList.append l x ≠ [] := by
  unfold UniqueList.append
  split
  · next hx => exact fun hn => by subst hn; cases hx
  · simp

theorem userVarLines_forall₂ (ver : ℚ) (vars : List (String × Var)) :
    ∀ (order u : List String), userVarLines ver vars order = .ok u →
      List.Forall₂ (fun k line => ∃ v, lookupVar vars k = some v ∧
        line = Var.render ver v) order u := by
  intro order
  induction order with
  | nil =>
    intro u h
    simp only [userVarLines] at h
    cases h
    exact List.Forall₂.nil
  | cons k ks ih =>
    intro u h
    simp only [userVarLines] at h
    cases hlk : lookupVar vars k with
    | none => rw [hlk] at h; cases h
    | some v =>
      rw [hlk] at h
      cases hrec : userVarLines ver vars ks with
      | error m => rw [hrec] at h; simp [Except.map] at h
      | ok rest =>
        rw [hrec] at h
        simp only [Except.map] at h
        cases h
        exact List.Forall₂.cons ⟨v, hlk, rfl⟩ (ih rest hrec)

theorem builder_build_cmd_dry_run_witness :
    Builder.build (fun _ => true) "/w"
        ⟨"app", false, "gcc", "g++", ["m.cpp"], [], [], [], ["-O2"], [], ["-lm"], [], [], []⟩
        true =
      .ok (⟨"app", false, "gcc", "g++", ["m.cpp"], [], ["-I/w"], [], ["-O2"], [], ["-lm"], [], [], []⟩,
        [Effect.print "g++ -O2 -I/w m.cpp -lm   -o app"]) ∧
    ([Effect.print "g++ -O2 -I/w m.cpp -lm   -o app"] =
        [Effect.print (Builder.build_cmd
          ⟨"app", false, "gcc", "g++", ["m.cpp"], [], ["-I/w"], [], ["-O2"], [], ["-lm"], [], [], []⟩)] ∧
      ∀ eff ∈ [Effect.print "g++ -O2 -I/w m.cpp -lm   -o app"], eff.isExec = false) :=
  ⟨by rfl,
    (builder_build_cmd_dry_run
      ⟨"app", false, "gcc", "g++", ["m.cpp"], [], [], [], ["-O2"], [], ["-lm"], [], [], []⟩
      (fun _ => true) "/w").2 _ _ (by rfl)⟩

theorem generate_ok_elim (ver : ℚ) (fs : String → Bool)
    (st : GenState) (lines : List String)
    (h : generate ver fs st = .ok lines) :
    ∃ st2 u,
      GenState.setup_defaults fs st = .ok st2 ∧
      userVarLines ver st2.vars st2.var_order = .ok u ∧
      lines =
        (["# project variables"] ++ u ++ [""] ++
          includeDirsLines st2 ++ linkDirsLines st2 ++ [""] ++
          ["CXX = " ++ st2.cxx] ++ cflagsLines st2 ++ cxxflagsLines st2 ++
          ldflagsLines st2 ++ ldlibsLines st2 ++ [""]) ++
        write_includes st2 ++ write_phony st2 ++ write_conditionals st2 ++
        write_pattern_rules st2 ++ write_targets st2 ++ write_clean st2 := by
  unfold generate at h
  split at h
  · cases h
  · next st2 hsd =>
    split at h
    · cases h
    · next v hwv =>
      cases h
      unfold write_variables at hwv
      cases huv : userVarLines ver st2.vars st2.var_order with
      | error m => rw [huv] at hwv; cases hwv
      | ok u =>
        rw [huv] at hwv
        simp only [Except.map] at hwv
        cases hwv
        exact ⟨st2, u, hsd, huv, rfl⟩

/-- C3: every successfully generated document is the concatenation, in the
fixed order of spec section 4.6, of the variables block (user variables in
first-insertion order, then the include-dir and link-dir aggregates, the
compiler line, and the aggregate flag and library lines), the include
directives, the phony declaration, the conditional blocks, the pattern
rules, the targets, and the clean target, and each collection-backed
section contributes nothing when its backing collection is empty.  The
include-directive and conditional-block sections are the spec-modelled
parts (their code is absent from src). -/
theorem generate_fixed_section_order (ver : ℚ) (fs : String → Bool)
    (st : GenState) (lines : List String)
    (h : generate ver fs st = .ok lines) :
    ∃ st2 u,
      GenState.setup_defaults fs st = .ok st2 ∧
      userVarLines ver st2.vars st2.var_order = .ok u ∧
      lines =
        (["# project variables"] ++ u ++ [""] ++
          includeDirsLines st2 ++ linkDirsLines st2 ++ [""] ++
          ["CXX = " ++ st2.cxx] ++ cflagsLines st2 ++ cxxflagsLines st2 ++
          ldflagsLines st2 ++ ldlibsLines st2 ++ [""]) ++
        write_includes st2 ++ write_phony st2 ++ write_conditionals st2 ++
        write_pattern_rules st2 ++ write_targets st2 ++ write_clean st2 ∧
      (st2.include_dirs = [] → includeDirsLines st2 = []) ∧
      (st2.link_dirs = [] → linkDirsLines st2 = []) ∧
      (st2.cflags = [] → cflagsLines st2 = []) ∧
      (st2.cxxflags = [] → cxxflagsLines st2 = []) ∧
      (st2.ldflags = [] → st2.link_dirs = [] → ldflagsLines st2 = []) ∧
      (st2.ldlibs = [] → ldlibsLines st2 = []) ∧
      (st2.includes = [] → st2.includes_optional = [] → write_includes st2 = []) ∧
      (st2.phony = [] → write_phony st2 = []) ∧
      (st2.conditionals = [] → write_conditionals st2 = []) ∧
      (st2.pattern_rules = [] → write_pattern_rules st2 = []) ∧
      (st2.targets = [] → write_targets st2 = []) ∧
      (st2.clean = [] → write_clean st2 = []) := by
  obtain ⟨st2, u, hsd, huv, hl⟩ := generate_ok_elim ver fs st lines h
  refine ⟨st2, u, hsd, huv, hl, ?_, ?_, ?_, ?_, ?_, ?_, ?_, ?_, ?_, ?_, ?_, ?_⟩
  · intro h1; simp [includeDirsLines, h1]
  · intro h1; simp [linkDirsLines, h1]
  · intro h1; simp [cflagsLines, h1]
  · intro h1; simp [cxxflagsLines, h1]
  · intro h1 h2; simp [ldflagsLines, h1, h2]
  · intro h1; simp [ldlibsLines, h1]
  · intro h1 h2; simp [write_includes, h1, h2]
  · intro h1; simp [write_phony, h1]
  · intro h1; simp [write_conditionals, h1]
  · intro h1; simp [write_pattern_rules, h1]
  · intro h1; rw [write_targets, h1]; rfl
  · intro h1; simp [write_clean, h1]

theorem generate_fixed_section_order_witness :
    generate 4 (fun _ => true) emptyGen =
      .ok ["# project variables", "", "INCLUDEDIRS = -I$(CURDIR)", "", "CXX = g++", ""] ∧
    ∃ st2 u, GenState.setup_defaults (fun _ => true) emptyGen = .ok st2 ∧
      userVarLines 4 st2.vars st2.var_order = .ok u :=
  ⟨by rfl, by
    obtain ⟨st2, u, h1, h2, _⟩ :=
      generate_fixed_section_order 4 (fun _ => true) emptyGen
        ["# project variables", "", "INCLUDEDIRS = -I$(CURDIR)", "", "CXX = g++", ""] (by rfl)
    exact ⟨st2, u, h1, h2⟩⟩

/-- C4: the emitted target blocks are the lexicographically sorted
permutation of the registered targets (so registration order is
irrelevant), while pattern rules and user variables are emitted exactly in
registration (first-insertion) order. -/
theorem targets_sorted_vars_rules_in_order (ver : ℚ) (st st₂ : GenState)
    (hperm : st.targets.Perm st₂.targets) :
    (∃ ts : List String, List.Perm ts st.targets ∧ List.Sorted (· ≤ ·) ts ∧
      write_targets st = ts.flatMap (fun t => [t, ""])) ∧
    write_targets st = write_targets st₂ ∧
    (st.pattern_rules ≠ [] →
      write_pattern_rules st =
        "# Pattern rules" :: st.pattern_rules.flatMap (fun r => [r, ""])) ∧
    (∀ u, userVarLines ver st.vars st.var_order = .ok u →
      List.Forall₂ (fun k line => ∃ v, lookupVar st.vars k = some v ∧
        line = Var.render ver v) st.var_order u) := by
  refine ⟨⟨List.insertionSort (· ≤ ·) st.targets, List.perm_insertionSort _ _,
      List.sorted_insertionSort _ _, rfl⟩, ?_, ?_, ?_⟩
  · unfold write_targets
    congr 1
    refine List.eq_of_perm_of_sorted ?_ (List.sorted_insertionSort _ _)
      (List.sorted_insertionSort _ _)
    exact (List.perm_insertionSort _ _).trans
      (hperm.trans (List.perm_insertionSort _ _).symm)
  · intro hne
    simp [write_pattern_rules, hne]
  · intro u hu
    exact userVarLines_forall₂ ver st.vars st.var_order u hu

/-- State with targets registered out of order, one pattern rule and one
user variable, for the C4 witness. -/
def c4stA : GenState :=
  { emptyGen with
      targets := ["b:\n\tx", "a:\n\ty"],
      pattern_rules := ["%.o: %.c\n\tcc -c $<"],
      vars := [("CC", mkVar "CC" "gcc")],
      var_order := ["CC"] }

/-- Same targets as `c4stA` but registered in the opposite order. -/
def c4stB : GenState := { emptyGen with targets := ["a:\n\ty", "b:\n\tx"] }

theorem targets_sorted_vars_rules_in_order_witness :
    write_targets c4stA = write_targets c4stB ∧
    write_pattern_rules c4stA = ["# Pattern rules", "%.o: %.c\n\tcc -c $<", ""] ∧
    List.Forall₂ (fun k line => ∃ v, lookupVar c4stA.vars k = some v ∧
      line = Var.render 4 v) c4stA.var_order ["CC = gcc"] := by
  have H := targets_sorted_vars_rules_in_order 4 c4stA c4stB
    (List.Perm.swap "a:\n\ty" "b:\n\tx" [])
  refine ⟨H.2.1, ?_, H.2.2.2 ["CC = gcc"] (by rfl)⟩
  rw [H.2.2.1 (by decide)]
  rfl

/-- C5: `add_target` called with neither recipe nor dependencies (Python
falsiness: absent or empty) fails, and fails with the duplicate-target
error when the rendered text is already registered, registering the
rendered text otherwise; `add_pattern_rule` fails when any argument is
empty, when either pattern lacks the percent wildcard, or when the exact
rendered rule already exists, registering the rendered rule otherwise.  In
the source every raise precedes the append, so an error leaves the backing
collection unchanged, which the error results here (carrying no updated
list) mirror. -/
theorem add_target_add_pattern_rule_spec
    (targets rules : List String) (name : String) (recipe : Option String)
    (deps : Option (List String)) (tp sp rc : String) :
    (strTruthy recipe = false → listTruthy deps = false →
      add_target targets name recipe deps =
        .error "Either recipe or dependencies must be provided") ∧
    ((strTruthy recipe = true ∨ listTruthy deps = true) →
      renderTarget name recipe deps ∈ targets →
      add_target targets name recipe deps =
        .error ("target: " ++ renderTarget name recipe deps ++
          " already exists in targets list")) ∧
    ((strTruthy recipe = true ∨ listTruthy deps = true) →
      renderTarget name recipe deps ∉ targets →
      add_target targets name recipe deps =
        .ok (targets ++ [renderTarget name recipe deps])) ∧
    (tp = "" ∨ sp = "" ∨ rc = "" →
      add_pattern_rule rules tp sp rc =
        .error "target_pattern, source_pattern, and recipe are all required") ∧
    (¬(tp = "" ∨ sp = "" ∨ rc = "") → '%' ∉ tp.data →
      add_pattern_rule rules tp sp rc =
        .error "target_pattern must contain percent wildcard") ∧
    (¬(tp = "" ∨ sp = "" ∨ rc = "") → '%' ∈ tp.data → '%' ∉ sp.data →
      add_pattern_rule rules tp sp rc =
        .error "source_pattern must contain percent wildcard") ∧
    (¬(tp = "" ∨ sp = "" ∨ rc = "") → '%' ∈ tp.data → '%' ∈ sp.data →
      (tp ++ ": " ++ sp ++ "\n\t" ++ rc) ∈ rules →
      add_pattern_rule rules tp sp rc = .error "pattern rule already exists") ∧
    (¬(tp = "" ∨ sp = "" ∨ rc = "") → '%' ∈ tp.data → '%' ∈ sp.data →
      (tp ++ ": " ++ sp ++ "\n\t" ++ rc) ∉ rules →
      add_pattern_rule rules tp sp rc =
        .ok (rules ++ [tp ++ ": " ++ sp ++ "\n\t" ++ rc])) := by
  refine ⟨?_, ?_, ?_, ?_, ?_, ?_, ?_, ?_⟩
  · intro h1 h2
    simp [add_target, h1, h2]
  · intro h1 h2
    have hc : ¬(strTruthy recipe = false ∧ listTruthy deps = false) := by
      rcases h1 with h1 | h1 <;> simp [h1]
    simp [add_target, hc, h2]
  · intro h1 h2
    have hc : ¬(strTruthy recipe = false ∧ listTruthy deps = false) := by
      rcases h1 with h1 | h1 <;> simp [h1]
    simp [add_target, hc, h2, UniqueList.append]
  · intro h1
    simp [add_pattern_rule, h1]
  · intro h1 h2
    simp [add_pattern_rule, h1, h2]
  · intro h1 h2 h3
    simp [add_pattern_rule, h1, h2, h3]
  · intro h1 h2 h3 h4
    simp [add_pattern_rule, h1, h2, h3, h4]
  · intro h1 h2 h3 h4
    simp [add_pattern_rule, h1, h2, h3, h4, UniqueList.append]

theorem add_target_add_pattern_rule_spec_witness :
    add_target [] "all" none (some ["x"]) = .ok ["all: x"] ∧
    add_target [] "all" none none =
      .error "Either recipe or dependencies must be provided" ∧
    add_target ["all: x"] "all" none (some ["x"]) =
      .error ("target: " ++ "all: x" ++ " already exists in targets list") ∧
    add_pattern_rule [] "x.o" "%.cpp" "r" =
      .error "target_pattern must contain percent wildcard" ∧
    add_pattern_rule [] "%.o" "x.cpp" "r" =
      .error "source_pattern must contain percent wildcard" ∧
    add_pattern_rule [] "" "%.cpp" "r" =
      .error "target_pattern, source_pattern, and recipe are all required" ∧
    add_pattern_rule [] "%.o" "%.cpp" "r" = .ok ["%.o: %.cpp\n\tr"] := by
  have H1 := add_target_add_pattern_rule_spec [] [] "all" none (some ["x"]) "x.o" "%.cpp" "r"
  have H2 := add_target_add_pattern_rule_spec ["all: x"] [] "all" none (some ["x"]) "%.o" "x.cpp" "r"
  have H3 := add_target_add_pattern_rule_spec [] [] "all" none none "" "%.cpp" "r"
  have H4 := add_target_add_pattern_rule_spec [] [] "all" none none "%.o" "%.cpp" "r"
  refine ⟨?_, ?_, ?_, ?_, ?_, ?_, ?_⟩
  · have := H1.2.2.1 (Or.inr (by rfl)) (by decide)
    simpa using this
  · exact H3.1 rfl rfl
  · have := H2.2.1 (Or.inr (by rfl)) (by decide)
    simpa using this
  · exact H1.2.2.2.2.1 (by simp) (by decide)
  · exact H2.2.2.2.2.2.1 (by simp) (by decide) (by decide)
  · exact H3.2.2.2.1 (Or.inl rfl)
  · have := H4.2.2.2.2.2.2.2 (by simp) (by decide) (by decide) (by decide)
    simpa using this

/-- C8 counterexample: the scenario of registering include dirs and link
dirs `["/tmp"]` and generating produces the document `c8lines`, whose
include-dir assignment line is `INCLUDEDIRS = -I/tmp -I$(CURDIR)` (the
generator appends its `$(CURDIR)` default before writing), so no line of
the document is exactly `INCLUDEDIRS = -I/tmp` as the claim states. -/
theorem c8_exact_line_counterexample :
    c8res = .ok c8lines ∧ "INCLUDEDIRS = -I/tmp" ∉ c8lines :=
  ⟨by rfl, by decide⟩

/-- C8 (amended): the scenario document contains the exact line
`INCLUDEDIRS = -I/tmp -I$(CURDIR)` — whose value starts with `-I/tmp` —
and the exact line `LINKDIRS = -L/tmp`. -/
theorem c8_amended_lines :
    c8res = .ok c8lines ∧
    "INCLUDEDIRS = -I/tmp -I$(CURDIR)" ∈ c8lines ∧
    "LINKDIRS = -L/tmp" ∈ c8lines :=
  ⟨by rfl, by decide, by decide⟩

/-- C9: evaluating the code at the failing input.  With the user variable
`MYDIR = /tmp` registered and `/tmp` an existing directory, `check_dir`
on the path `$(MYDIR)` — and hence `add_include_dirs(["$(MYDIR)"])` —
raises the uncaught `TypeError` from `os.path.isdir(self.vars[key])`
(the dict stores `Var` objects, not their value strings) instead of
accepting the path as the claim describes; the built-in variables and the
plain existing directory are accepted. -/
theorem check_dir_var_reference_type_error :
    (lookupVar c9gen.vars "MYDIR" = some (mkVar "MYDIR" "/tmp") ∧
      fsTmp "/tmp" = true) ∧
    checkDir c9gen.vars fsTmp "$(MYDIR)" =
      .error "TypeError: stat path should be a string, not Var" ∧
    GenState.add_include_dirs fsTmp c9gen ["$(MYDIR)"] =
      .error "TypeError: stat path should be a string, not Var" ∧
    checkDir emptyGen.vars fsTmp "$(CURDIR)" = .ok true ∧
    checkDir emptyGen.vars fsTmp "$(HOME)" = .ok true ∧
    checkDir emptyGen.vars fsTmp "/tmp" = .ok true :=
  ⟨⟨rfl, rfl⟩, rfl, rfl, rfl, rfl, rfl⟩

/-- C10: whenever generation succeeds (for any state whose include-dir
collection does not already hold the raw, unprefixed string `$(CURDIR)` —
the accumulator only ever stores `-I`-prefixed entries), the emitted
document contains an `INCLUDEDIRS` assignment whose value list includes the
default `-I$(CURDIR)` added by `_setup_defaults`, even if the caller never
registered an include directory. -/
theorem generate_contains_default_curdir (ver : ℚ) (fs : String → Bool)
    (st : GenState) (lines : List String)
    (hraw : "$(CURDIR)" ∉ st.include_dirs)
    (h : generate ver fs st = .ok lines) :
    ∃ dirs, "-I$(CURDIR)" ∈ dirs ∧ ("INCLUDEDIRS = " ++ sjoin dirs) ∈ lines := by
  have hcd : checkDir st.vars fs "$(CURDIR)" = .ok true := by
    unfold checkDir
    rw [if_pos (Or.inr (Or.inr rfl))]
  have hsd : GenState.setup_defaults fs st =
      .ok { st with include_dirs := UniqueList.append st.include_dirs "-I$(CURDIR)" } := by
    unfold GenState.setup_defaults GenState.add_include_dirs
    rw [addEntries_single st.strict (checkDir st.vars fs) "-I" st.include_dirs
      "$(CURDIR)" hcd hraw]
    rfl
  obtain ⟨st2, u, hsd2, huv, hl⟩ := generate_ok_elim ver fs st lines h
  rw [hsd] at hsd2
  cases hsd2
  subst hl
  refine ⟨UniqueList.append st.include_dirs "-I$(CURDIR)", mem_uniqueList_append _ _, ?_⟩
  have hne : (UniqueList.append st.include_dirs "-I$(CURDIR)").isEmpty = false := by
    cases hc : UniqueList.append st.include_dirs "-I$(CURDIR)" with
    | nil => exact absurd hc (uniqueList_append_ne_nil _ _)
    | cons a as => rfl
  simp [includeDirsLines, hne]

theorem generate_contains_default_curdir_witness :
    ("$(CURDIR)" ∉ emptyGen.include_dirs ∧
      generate 4 (fun _ => false) emptyGen =
        .ok ["# project variables", "", "INCLUDEDIRS = -I$(CURDIR)", "", "CXX = g++", ""]) ∧
    ∃ dirs, "-I$(CURDIR)" ∈ dirs ∧ ("INCLUDEDIRS = " ++ sjoin dirs) ∈
      ["# project variables", "", "INCLUDEDIRS = -I$(CURDIR)", "", "CXX = g++", ""] :=
  ⟨⟨by decide, by rfl⟩,
    generate_contains_default_curdir 4 (fun _ => false) emptyGen
      ["# project variables", "", "INCLUDEDIRS = -I$(CURDIR)", "", "CXX = g++", ""]
      (by decide) (by rfl)⟩

end Makefilegen
